import Mathlib

/-!
# Second-Guess: verification of the decision-evaluation core

Shallow embedding of the pure core of the Second-Guess repository
(`src/models/schemas.py`, `src/agents/confidence_estimator.py`,
`src/agents/context_analyzer.py`, `src/services/decision_service.py`,
`src/services/workflow.py`), together with theorems settling the
specification claims about it.

Python `int` values are modelled as `Int` (or `Nat` for version numbers,
which the code keeps positive); Python lists as `List`; optional values as
`Option`; code that raises as `Except`.
-/

namespace SecondGuess

/-! ## Data model (`src/models/schemas.py`) -/

/-- `schemas.Assumption`: an assumption made by the Proposer. -/
structure Assumption where
  statement : String
  basis : String
  risk_level : String
  deriving DecidableEq

/-- `schemas.ProposerOutput`. `confidence` is an integer (pydantic `ge=0, le=100`). -/
structure ProposerOutput where
  recommendation : String
  assumptions : List Assumption
  confidence : Int
  justification : String
  deriving DecidableEq

/-- `schemas.ContextAnalysis`. `completeness_score` is an integer (pydantic `ge=0, le=100`). -/
structure ContextAnalysis where
  decision_type : String
  required_context : List String
  provided_context : List String
  missing_context : List String
  completeness_score : Int
  deriving DecidableEq

/-- `schemas.FailureScenario`. -/
structure FailureScenario where
  description : String
  trigger : String
  impact_severity : String
  deriving DecidableEq

/-- `schemas.RiskBreakdown`: four integer risk dimensions (each pydantic `ge=0, le=10`). -/
structure RiskBreakdown where
  execution : Int
  market_customer : Int
  reputational : Int
  opportunity_cost : Int
  deriving DecidableEq

/-- `schemas.DevilsAdvocateOutput`. -/
structure DevilsAdvocateOutput where
  counterarguments : List String
  failure_scenarios : List FailureScenario
  high_risk_assumptions : List String
  risk_breakdown : RiskBreakdown
  deriving DecidableEq

/-- `schemas.WeakClaim`. -/
structure WeakClaim where
  source : String
  claim : String
  weakness_reason : String
  deriving DecidableEq

/-- `schemas.UnsupportedClaim`. -/
structure UnsupportedClaim where
  source : String
  claim : String
  missing_evidence : String
  deriving DecidableEq

/-- `schemas.JudgeOutput`. -/
structure JudgeOutput where
  proposer_strength : Int
  advocate_strength : Int
  weak_claims : List WeakClaim
  unsupported_claims : List UnsupportedClaim
  reasoning_assessment : String
  deriving DecidableEq

/-- `schemas.ConfidencePenalty`. -/
structure ConfidencePenalty where
  reason : String
  percentage_impact : Int
  deriving DecidableEq

/-- `schemas.ConfidenceImprovement`. -/
structure ConfidenceImprovement where
  reason : String
  percentage_impact : Int
  deriving DecidableEq

/-- `schemas.ConfidenceOutput`. -/
structure ConfidenceOutput where
  initial_confidence : Int
  adjusted_confidence : Int
  delta : Int
  penalties : List ConfidencePenalty
  improvements : List ConfidenceImprovement
  deriving DecidableEq

/-! ## Confidence estimator (`src/agents/confidence_estimator.py`) -/

/-- Python's substring test `needle in hay`, on the character lists of the two
strings. -/
def containsSubstring (hay needle : String) : Bool :=
  decide (needle.data <:+: hay.data)

/-- `ConfidenceEstimatorAgent._calculate_missing_context_penalties`: one penalty
per missing context item, sized by the completeness score. -/
def calculate_missing_context_penalties (context_analysis : ContextAnalysis) :
    List ConfidencePenalty :=
  context_analysis.missing_context.map fun missing_item =>
    let penalty : Int :=
      if context_analysis.completeness_score < 30 then 20
      else if context_analysis.completeness_score < 50 then 15
      else 10
    { reason := "Missing critical context: " ++ missing_item
      percentage_impact := penalty }

/-- `ConfidenceEstimatorAgent._calculate_unsupported_claim_penalties`: 8 points
per unsupported claim whose source is the Proposer. -/
def calculate_unsupported_claim_penalties (judge_output : JudgeOutput) :
    List ConfidencePenalty :=
  let proposer_unsupported :=
    judge_output.unsupported_claims.filter fun claim => claim.source == "proposer"
  proposer_unsupported.map fun claim =>
    { reason := "Unsupported claim: " ++ claim.claim.take 60 ++ "... (missing: "
        ++ claim.missing_evidence.take 40 ++ "...)"
      percentage_impact := 8 }

/-- `ConfidenceEstimatorAgent._calculate_high_risk_assumption_penalties`: for
each Proposer assumption with `risk_level = "high"`, 12 points if its statement
occurs case-insensitively inside one of the Devil's Advocate flags, else 6. -/
def calculate_high_risk_assumption_penalties (proposer_output : ProposerOutput)
    (devils_advocate_output : DevilsAdvocateOutput) : List ConfidencePenalty :=
  (proposer_output.assumptions.filter fun a => a.risk_level == "high").map
    fun assumption =>
      let flagged := devils_advocate_output.high_risk_assumptions.any fun hra =>
        containsSubstring hra.toLower assumption.statement.toLower
      if flagged then
        { reason := "High-risk unverified assumption: " ++ assumption.statement.take 60 ++ "..."
          percentage_impact := 12 }
      else
        { reason := "High-risk assumption: " ++ assumption.statement.take 60 ++ "..."
          percentage_impact := 6 }

/-- `ConfidenceEstimatorAgent._calculate_weak_claim_penalties`: 5 points per
weak claim whose source is the Proposer. -/
def calculate_weak_claim_penalties (judge_output : JudgeOutput) :
    List ConfidencePenalty :=
  let proposer_weak :=
    judge_output.weak_claims.filter fun claim => claim.source == "proposer"
  proposer_weak.map fun claim =>
    { reason := "Weak/vague claim: " ++ claim.claim.take 60 ++ "... ("
        ++ claim.weakness_reason.take 40 ++ "...)"
      percentage_impact := 5 }

/-- `ConfidenceEstimatorAgent._calculate_execution_risk_penalties`: 15 points
when the execution risk is at least 8, 8 points when it is 6 or 7, else none. -/
def calculate_execution_risk_penalties (devils_advocate_output : DevilsAdvocateOutput) :
    List ConfidencePenalty :=
  let execution_risk := devils_advocate_output.risk_breakdown.execution
  if execution_risk ≥ 8 then
    [{ reason := "Critical execution risk level (" ++ toString execution_risk ++ "/10)"
       percentage_impact := 15 }]
  else if execution_risk ≥ 6 then
    [{ reason := "High execution risk level (" ++ toString execution_risk ++ "/10)"
       percentage_impact := 8 }]
  else []

/-- `ConfidenceEstimatorAgent.estimate`: collect the five penalty groups and
clamp the penalised confidence into [0, 100]. -/
def estimate (context_analysis : ContextAnalysis) (proposer_output : ProposerOutput)
    (devils_advocate_output : DevilsAdvocateOutput) (judge_output : JudgeOutput) :
    ConfidenceOutput :=
  let initial_confidence := proposer_output.confidence
  let penalties :=
    calculate_missing_context_penalties context_analysis
      ++ calculate_unsupported_claim_penalties judge_output
      ++ calculate_high_risk_assumption_penalties proposer_output devils_advocate_output
      ++ calculate_weak_claim_penalties judge_output
      ++ calculate_execution_risk_penalties devils_advocate_output
  let total_penalty := (penalties.map fun p => p.percentage_impact).sum
  let adjusted_confidence := max 0 (min 100 (initial_confidence - total_penalty))
  { initial_confidence := initial_confidence
    adjusted_confidence := adjusted_confidence
    delta := adjusted_confidence - initial_confidence
    penalties := penalties
    improvements := [] }

/-! ## Context analyzer scoring (`src/agents/context_analyzer.py`) -/

/-- `ContextAnalyzerAgent._calculate_completeness_score`. The Python body is
`int((len(provided) / len(required)) * 100)` clamped to [0, 100], with an early
return of 100 when `required` is empty. The float division and the truncation
toward zero performed by `int()` are modelled by exact rational division and
`Int.floor` (the operands are non-negative list lengths). -/
def calculate_completeness_score (provided required : List String) : Int :=
  if required.isEmpty then 100
  else
    let score : Int := ⌊((provided.length : ℚ) / (required.length : ℚ)) * 100⌋
    max 0 (min 100 score)

/-- Modelled from the spec: the spec's formula for the completeness score,
`round(100 × |provided| / |required|)` clamped to [0, 100], with score 100 when
`required` is empty. Stated for comparison with
`calculate_completeness_score`, which embeds the code. -/
def completeness_score_round_spec (provided required : List String) : Int :=
  if required.isEmpty then 100
  else max 0 (min 100 (round ((100 * (provided.length : ℚ)) / (required.length : ℚ))))

/-! ## Final recommendation rendering
(`ConfidenceEstimatorAgent.generate_final_recommendation`) -/

/-- `ConfidenceEstimatorAgent.generate_final_recommendation`: renders the final
recommendation text. Branches on the adjusted confidence: below 40 a DELAY text
with blockers, from 40 below 70 a CONDITIONAL PROCEED text with requirements,
otherwise a PROCEED text with monitoring items. Python f-strings become
explicit string appends; list slices `[:n]` become `List.take n`. -/
def generate_final_recommendation (confidence_output : ConfidenceOutput)
    (proposer_output : ProposerOutput) (devils_advocate_output : DevilsAdvocateOutput)
    (context_analysis : ContextAnalysis) : String :=
  let adjusted_confidence := confidence_output.adjusted_confidence
  if adjusted_confidence < 40 then
    let blockers :=
      (if context_analysis.missing_context.isEmpty then []
       else (context_analysis.missing_context.take 3).map
         fun missing => "Gather missing context: " ++ missing)
      ++ (((proposer_output.assumptions.filter fun a => a.risk_level == "high").map
            fun a => a.statement).take 2).map
           (fun assumption => "Verify assumption: " ++ assumption)
      ++ ((devils_advocate_output.failure_scenarios.filter
            fun fs => fs.impact_severity == "critical").take 2).map
           (fun scenario => "Mitigate risk: " ++ scenario.description)
    let blockers_text := String.intercalate "\n" ((blockers.take 5).map fun b => "  - " ++ b)
    "DELAY\n\nAdjusted confidence (" ++ toString adjusted_confidence
      ++ "%) is too low to proceed. Address these blockers first:\n\n" ++ blockers_text
      ++ "\n\nOnce these blockers are resolved, re-evaluate the decision with updated context."
  else if adjusted_confidence < 70 then
    let requirements :=
      (if context_analysis.missing_context.isEmpty then []
       else ["Obtain " ++ String.intercalate ", " (context_analysis.missing_context.take 2)])
      ++ (match (proposer_output.assumptions.filter fun a => a.risk_level == "high").map
            (fun a => a.statement) with
          | [] => []
          | a :: _ => ["Validate assumptions: " ++ a.take 50 ++ "..."])
      ++ (match devils_advocate_output.failure_scenarios.filter
            (fun fs => fs.impact_severity == "high" || fs.impact_severity == "critical") with
          | [] => []
          | fs :: _ => ["Prepare mitigation for: " ++ fs.description.take 50 ++ "..."])
    let requirements_text :=
      String.intercalate "\n" ((requirements.take 5).map fun r => "  - " ++ r)
    "CONDITIONAL PROCEED\n\nAdjusted confidence (" ++ toString adjusted_confidence
      ++ "%) suggests proceeding with caution. Required conditions:\n\n" ++ requirements_text
      ++ "\n\nMonitor execution closely and be prepared to rollback if issues arise."
  else
    let monitoring_items :=
      (match (proposer_output.assumptions.filter fun a => a.risk_level == "medium").map
          (fun a => a.statement) with
       | [] => []
       | a :: _ => ["Monitor assumption: " ++ a.take 60 ++ "..."])
      ++ (match devils_advocate_output.failure_scenarios with
          | [] => []
          | fs :: _ => ["Watch for: " ++ fs.description.take 60 ++ "..."])
      ++ (if devils_advocate_output.risk_breakdown.execution ≥ 5 then
            ["Monitor execution closely (risk: "
              ++ toString devils_advocate_output.risk_breakdown.execution ++ "/10)"]
          else [])
      ++ (if devils_advocate_output.risk_breakdown.reputational ≥ 6 then
            ["Monitor public perception (risk: "
              ++ toString devils_advocate_output.risk_breakdown.reputational ++ "/10)"]
          else [])
    let monitoring_text :=
      String.intercalate "\n" ((monitoring_items.take 4).map fun m => "  - " ++ m)
    if monitoring_items.isEmpty then
      "PROCEED\n\nAdjusted confidence (" ++ toString adjusted_confidence
        ++ "%) strongly supports moving forward. No significant monitoring requirements identified."
    else
      "PROCEED\n\nAdjusted confidence (" ++ toString adjusted_confidence
        ++ "%) supports moving forward. Recommended monitoring:\n\n" ++ monitoring_text
        ++ "\n\nConfidence is high, but stay vigilant for early warning signs."

/-- The leading run of alphabetic characters of a character list. -/
def leadingWord : List Char → List Char
  | [] => []
  | c :: cs => if c.isAlpha then c :: leadingWord cs else []

/-- The category keyword heading a rendered recommendation: its leading
alphabetic word (DELAY, CONDITIONAL or PROCEED for the three render shapes). -/
def recommendationCategory (s : String) : String :=
  String.mk (leadingWord s.data)

/-! ## Version store (`src/services/decision_service.py`)

The persistence layer stores one row per evaluation (`DecisionRunDB`). The
model keeps the projection of a row that the verified operations read: the
decision identity, the version number, and the decision statement recorded in
the row's `output_json`. -/

/-- One stored `DecisionRunDB` row, projected to the fields the claims read. -/
structure DecisionRunRow where
  decision_id : String
  version : Nat
  decision : String
  deriving DecidableEq

/-- Input of a (re-)evaluation request (`schemas.DecisionInput`). -/
structure DecisionInput where
  decision : String
  context : Option String
  deriving DecidableEq

/-- Accumulator step of `order_by(version.desc()).first()`: keep a row with the
largest version seen so far. -/
def pick_latest (acc : Option DecisionRunRow) (r : DecisionRunRow) : Option DecisionRunRow :=
  match acc with
  | none => some r
  | some best => if best.version < r.version then some r else some best

/-- The query `filter(decision_id == id).order_by(version.desc()).first()`:
the stored row with the largest version for the identity, if any. -/
def latest_record (db : List DecisionRunRow) (decision_id : String) :
    Option DecisionRunRow :=
  (db.filter fun r => r.decision_id == decision_id).foldl pick_latest none

/-- `DecisionService._get_next_version`: `latest.version + 1`, or 1 when the
identity has no stored row. -/
def get_next_version (db : List DecisionRunRow) (decision_id : String) : Nat :=
  match latest_record db decision_id with
  | some latest => latest.version + 1
  | none => 1

/-- `DecisionService.reevaluate_decision`, projected onto the version store.
The workflow stages (external LLM calls) do not touch the store and do not
affect the stored fields the claims read, so they are not modelled here. A
raised `ValueError` is modelled as an `Except.error` paired with the unchanged
store (the exception aborts the method before any `db.add`/`commit`). -/
def reevaluate_decision (db : List DecisionRunRow) (decision_id : String)
    (decision_input : DecisionInput) : List DecisionRunRow × Except String DecisionRunRow :=
  match latest_record db decision_id with
  | none => (db, .error ("Decision " ++ decision_id ++ " not found"))
  | some latest_run =>
      if decision_input.decision ≠ latest_run.decision then
        (db, .error ("Decision statement must match original. Expected: '"
          ++ latest_run.decision ++ "', Got: '" ++ decision_input.decision ++ "'"))
      else
        let next_version := get_next_version db decision_id
        let row : DecisionRunRow :=
          { decision_id := decision_id, version := next_version
            decision := decision_input.decision }
        (db ++ [row], .ok row)

/-- The missing-context diff of `DecisionService.compare_versions`
(decision_service.py lines 349-355): Python builds `set(...)` from the two
missing-context lists and materialises the three set operations as lists in
unspecified iteration order, so the model stays at the level of finite sets.
Components: resolved, remaining, new. -/
def compare_missing_context (v1_missing v2_missing : List String) :
    Finset String × Finset String × Finset String :=
  let v1_set := v1_missing.toFinset
  let v2_set := v2_missing.toFinset
  (v1_set \ v2_set, v2_set ∩ v1_set, v2_set \ v1_set)

/-! ## Workflow orchestration and tracing (`src/services/workflow.py`)

The tracing collaborator (the Langfuse client) is modelled as a record of
operations that either succeed or raise; a raised Python exception is an
`Except.error`. Score values (floats sent to the telemetry sink) and span
input/output payloads do not influence the pipeline state, so only the
success-or-raise behaviour of each call is modelled. The four reasoning agents
backed by LLM calls are model parameters (`AgentStubs`); the confidence
estimator stage runs the embedded `estimate` and
`generate_final_recommendation`. -/

/-- Operations of the tracing collaborator. Each `Except.error` models a raised
exception. -/
structure LangfuseOps where
  trace_create : Except String String
  span_create : String → String → Except String Unit
  span_end : String → Except String Unit
  log_score : String → String → Except String Unit
  trace_update : String → Except String Unit
  flush_events : Except String Unit

/-- The externally supplied reasoning agents (LLM-backed), as pure stubs. -/
structure AgentStubs where
  analyze : String → String → ContextAnalysis
  propose : String → String → ContextAnalysis → ProposerOutput
  critique : String → String → ContextAnalysis → ProposerOutput → DevilsAdvocateOutput
  judge : String → String → ContextAnalysis → ProposerOutput → DevilsAdvocateOutput → JudgeOutput

/-- `workflow.DecisionState`: the accumulated state threaded through the graph. -/
structure DecisionState where
  decision : String
  context : Option String
  context_analysis : Option ContextAnalysis
  proposer_output : Option ProposerOutput
  devils_advocate_output : Option DevilsAdvocateOutput
  judge_output : Option JudgeOutput
  confidence_output : Option ConfidenceOutput
  final_recommendation : Option String
  trace_id : Option String
  deriving DecidableEq

/-- `DecisionWorkflow._analyze_context`. The `langfuse.span` and `span.end`
calls are not guarded by try/except in the source, so a raised exception
propagates (hence `Except` without a catch). -/
def analyze_context_node (lf : Option LangfuseOps) (agents : AgentStubs)
    (st : DecisionState) : Except String DecisionState := do
  let span_open ←
    match lf with
    | some ops =>
        match st.trace_id with
        | some tid => do
            _ ← ops.span_create tid "context_analyzer"
            pure true
        | none => pure false
    | none => pure false
  let context_analysis := agents.analyze st.decision (st.context.getD "")
  let st' := { st with context_analysis := some context_analysis }
  match lf with
  | some ops =>
      match span_open with
      | true => do
          _ ← ops.span_end "context_analyzer"
          pure st'
      | false => pure st'
  | none => pure st'

/-- `DecisionWorkflow._propose_recommendation` (span calls unguarded, as in the
source). -/
def propose_recommendation_node (lf : Option LangfuseOps) (agents : AgentStubs)
    (st : DecisionState) : Except String DecisionState := do
  match st.context_analysis with
  | none => .error "context_analysis missing"
  | some context_analysis => do
    let span_open ←
      match lf with
      | some ops =>
          match st.trace_id with
          | some tid => do
              _ ← ops.span_create tid "proposer"
              pure true
          | none => pure false
      | none => pure false
    let proposer_output := agents.propose st.decision (st.context.getD "") context_analysis
    let st' := { st with proposer_output := some proposer_output }
    match lf with
    | some ops =>
        match span_open with
        | true => do
            _ ← ops.span_end "proposer"
            pure st'
        | false => pure st'
    | none => pure st'

/-- `DecisionWorkflow._critique_recommendation` (span calls unguarded). -/
def critique_recommendation_node (lf : Option LangfuseOps) (agents : AgentStubs)
    (st : DecisionState) : Except String DecisionState := do
  match st.context_analysis, st.proposer_output with
  | some context_analysis, some proposer_output => do
    let span_open ←
      match lf with
      | some ops =>
          match st.trace_id with
          | some tid => do
              _ ← ops.span_create tid "devils_advocate"
              pure true
          | none => pure false
      | none => pure false
    let devils_advocate_output :=
      agents.critique st.decision (st.context.getD "") context_analysis proposer_output
    let st' := { st with devils_advocate_output := some devils_advocate_output }
    match lf with
    | some ops =>
        match span_open with
        | true => do
            _ ← ops.span_end "devils_advocate"
            pure st'
        | false => pure st'
    | none => pure st'
  | _, _ => .error "stage outputs missing"

/-- `DecisionWorkflow._evaluate_reasoning` (span calls unguarded). -/
def evaluate_reasoning_node (lf : Option LangfuseOps) (agents : AgentStubs)
    (st : DecisionState) : Except String DecisionState := do
  match st.context_analysis, st.proposer_output, st.devils_advocate_output with
  | some context_analysis, some proposer_output, some devils_advocate_output => do
    let span_open ←
      match lf with
      | some ops =>
          match st.trace_id with
          | some tid => do
              _ ← ops.span_create tid "judge"
              pure true
          | none => pure false
      | none => pure false
    let judge_output :=
      agents.judge st.decision (st.context.getD "") context_analysis proposer_output
        devils_advocate_output
    let st' := { st with judge_output := some judge_output }
    match lf with
    | some ops =>
        match span_open with
        | true => do
            _ ← ops.span_end "judge"
            pure st'
        | false => pure st'
    | none => pure st'
  | _, _, _ => .error "stage outputs missing"

/-- `DecisionWorkflow._estimate_confidence`: runs the confidence estimator and
the final-recommendation rendering, then (if a span is open and a trace id is
set) ends the span and logs three scores - all unguarded in the source. -/
def estimate_confidence_node (lf : Option LangfuseOps) (st : DecisionState) :
    Except String DecisionState := do
  match st.context_analysis, st.proposer_output, st.devils_advocate_output,
      st.judge_output with
  | some context_analysis, some proposer_output, some devils_advocate_output,
      some judge_output => do
    let span_open ←
      match lf with
      | some ops =>
          match st.trace_id with
          | some tid => do
              _ ← ops.span_create tid "confidence_estimator"
              pure true
          | none => pure false
      | none => pure false
    let confidence_output :=
      estimate context_analysis proposer_output devils_advocate_output judge_output
    let final_rec :=
      generate_final_recommendation confidence_output proposer_output
        devils_advocate_output context_analysis
    let st' := { st with confidence_output := some confidence_output
                         final_recommendation := some final_rec }
    match lf with
    | some ops =>
        match span_open with
        | true => do
            _ ← ops.span_end "confidence_estimator"
            match st'.trace_id with
            | some tid => do
                _ ← ops.log_score tid "context_completeness"
                _ ← ops.log_score tid "adjusted_confidence"
                _ ← ops.log_score tid "confidence_delta"
                pure st'
            | none => pure st'
        | false => pure st'
    | none => pure st'
  | _, _, _, _ => .error "stage outputs missing"

/-- The trace id at the start of `DecisionWorkflow.run`: trace creation is
wrapped in try/except in the source, so on a raised exception the id stays
`None` (and on an unconfigured collaborator no trace is attempted). -/
def initial_trace_id (lf : Option LangfuseOps) : Option String :=
  match lf with
  | some ops =>
      match ops.trace_create with
      | .ok tid => some tid
      | .error _ => none
  | none => none

/-- `DecisionWorkflow.run`: creates the parent trace (guarded by try/except in
the source: on failure the trace id stays `None`), invokes the five graph nodes
in order, then updates and flushes the trace (also guarded: any failure is
discarded). -/
def run_workflow (lf : Option LangfuseOps) (agents : AgentStubs)
    (decision : String) (context : Option String) : Except String DecisionState := do
  let trace_id : Option String := initial_trace_id lf
  let st0 : DecisionState :=
    { decision := decision, context := context, context_analysis := none
      proposer_output := none, devils_advocate_output := none, judge_output := none
      confidence_output := none, final_recommendation := none, trace_id := trace_id }
  let st1 ← analyze_context_node lf agents st0
  let st2 ← propose_recommendation_node lf agents st1
  let st3 ← critique_recommendation_node lf agents st2
  let st4 ← evaluate_reasoning_node lf agents st3
  let st5 ← estimate_confidence_node lf st4
  match lf with
  | some ops =>
      match st5.trace_id with
      | some tid =>
          match (do _ ← ops.trace_update tid; ops.flush_events : Except String Unit) with
          | _ => pure st5
      | none => pure st5
  | none => pure st5

/-! ## Spec-side predicates -/

/-- The spec's flagging condition for a high-risk assumption: its statement
occurs as a case-insensitive substring of some string in the critique's
high-risk-assumption flags. -/
def flaggedBySpec (devils_advocate_output : DevilsAdvocateOutput) (a : Assumption) : Prop :=
  ∃ hra ∈ devils_advocate_output.high_risk_assumptions,
    a.statement.toLower.data <:+: hra.toLower.data

instance flaggedBySpecDecidable (devils_advocate_output : DevilsAdvocateOutput)
    (a : Assumption) : Decidable (flaggedBySpec devils_advocate_output a) := by
  unfold flaggedBySpec
  exact List.decidableBEx _ _

/-! ## Concrete fixtures used by witness and counterexample theorems -/

/-- Fixture: a context analysis with three missing items and completeness 0. -/
def caW : ContextAnalysis :=
  { decision_type := "launch"
    required_context := ["deployment readiness", "rollback plan", "monitoring"]
    provided_context := []
    missing_context := ["deployment readiness", "rollback plan", "monitoring"]
    completeness_score := 0 }

/-- Fixture: a proposal at confidence 50 with no assumptions. -/
def poW : ProposerOutput :=
  { recommendation := "proceed", assumptions := [], confidence := 50
    justification := "go" }

/-- Fixture: a critique with no flags and moderate risks. -/
def daoW : DevilsAdvocateOutput :=
  { counterarguments := [], failure_scenarios := [], high_risk_assumptions := []
    risk_breakdown :=
      { execution := 5, market_customer := 4, reputational := 3, opportunity_cost := 2 } }

/-- Fixture: a judge output with no weak or unsupported claims. -/
def joW : JudgeOutput :=
  { proposer_strength := 5, advocate_strength := 5, weak_claims := []
    unsupported_claims := [], reasoning_assessment := "ok" }

/-- Fixture: agent stubs returning fixed reports. -/
def agents0 : AgentStubs :=
  { analyze := fun _ _ =>
      { decision_type := "technical", required_context := [], provided_context := []
        missing_context := [], completeness_score := 100 }
    propose := fun _ _ _ =>
      { recommendation := "proceed", assumptions := [], confidence := 80
        justification := "fine" }
    critique := fun _ _ _ _ =>
      { counterarguments := [], failure_scenarios := [], high_risk_assumptions := []
        risk_breakdown :=
          { execution := 2, market_customer := 2, reputational := 2, opportunity_cost := 2 } }
    judge := fun _ _ _ _ _ =>
      { proposer_strength := 7, advocate_strength := 5, weak_claims := []
        unsupported_claims := [], reasoning_assessment := "solid" } }

/-- Fixture: a tracing collaborator whose every operation succeeds. -/
def lfOk : LangfuseOps :=
  { trace_create := .ok "trace-1"
    span_create := fun _ _ => .ok ()
    span_end := fun _ => .ok ()
    log_score := fun _ _ => .ok ()
    trace_update := fun _ => .ok ()
    flush_events := .ok () }

/-- Fixture: a tracing collaborator whose span creation raises. -/
def lfSpanRaises : LangfuseOps :=
  { lfOk with span_create := fun _ _ => .error "telemetry down" }

/-- Fixture: a tracing collaborator whose trace creation raises. -/
def lfTraceRaises : LangfuseOps :=
  { lfOk with trace_create := .error "telemetry down" }

/-- Fixture: a tracing collaborator whose final trace update and flush raise. -/
def lfUpdateRaises : LangfuseOps :=
  { lfOk with trace_update := fun _ => .error "telemetry down"
              flush_events := .error "telemetry down" }

/-- Fixture: a version store holding versions 1 and 5 of one identity (a gap)
and an unrelated identity. -/
def dbW : List DecisionRunRow :=
  [{ decision_id := "dec_20250103_launch", version := 1, decision := "ship" },
   { decision_id := "dec_20250103_launch", version := 5, decision := "ship" },
   { decision_id := "dec_20250104_pricing", version := 9, decision := "reprice" }]

/-- Fixture: a one-row store for the mismatch scenario. -/
def db9 : List DecisionRunRow :=
  [{ decision_id := "dec_1", version := 1, decision := "ship it" }]

/-- Fixture: a re-evaluation request whose decision text differs from the
stored one. -/
def input9 : DecisionInput :=
  { decision := "cancel it", context := none }

/-! ## Helper lemmas -/

theorem str_data_append (a b : String) : (a ++ b).data = a.data ++ b.data := rfl

theorem str_append_assoc (a b c : String) : a ++ b ++ c = a ++ (b ++ c) :=
  congrArg String.mk (List.append_assoc a.data b.data c.data)

theorem leadingWord_append (xs ys : List Char)
    (h : xs.all (fun c => c.isAlpha) = false) :
    leadingWord (xs ++ ys) = leadingWord xs := by
  induction xs with
  | nil => simp at h
  | cons c cs ih =>
      simp only [List.all_cons, Bool.and_eq_false_iff] at h
      simp only [List.cons_append, leadingWord]
      rcases h with hc | hcs
      · simp [hc]
      · by_cases hc : c.isAlpha
        · simp [hc, ih hcs]
        · simp [hc]

theorem category_of_append (lit rest : String)
    (h : lit.data.all (fun c => c.isAlpha) = false) :
    recommendationCategory (lit ++ rest) = String.mk (leadingWord lit.data) := by
  unfold recommendationCategory
  rw [str_data_append, leadingWord_append _ _ h]

/-- Every penalty produced by `estimate` deducts a non-negative number of
percentage points (all penalty sizes in the code are positive literals). -/
theorem estimate_penalties_nonneg (context_analysis : ContextAnalysis)
    (proposer_output : ProposerOutput) (devils_advocate_output : DevilsAdvocateOutput)
    (judge_output : JudgeOutput) :
    ∀ p ∈ (estimate context_analysis proposer_output devils_advocate_output
        judge_output).penalties, 0 ≤ p.percentage_impact := by
  intro p hp
  have hp' : p ∈ calculate_missing_context_penalties context_analysis
      ∨ p ∈ calculate_unsupported_claim_penalties judge_output
      ∨ p ∈ calculate_high_risk_assumption_penalties proposer_output devils_advocate_output
      ∨ p ∈ calculate_weak_claim_penalties judge_output
      ∨ p ∈ calculate_execution_risk_penalties devils_advocate_output := by
    simpa [estimate, List.mem_append, or_assoc] using hp
  rcases hp' with h | h | h | h | h
  · rcases List.mem_map.1 h with ⟨x, -, rfl⟩
    dsimp only
    split_ifs <;> norm_num
  · rcases List.mem_map.1 h with ⟨x, -, rfl⟩
    norm_num
  · rcases List.mem_map.1 h with ⟨x, -, rfl⟩
    dsimp only
    split_ifs <;> norm_num
  · rcases List.mem_map.1 h with ⟨x, -, rfl⟩
    norm_num
  · unfold calculate_execution_risk_penalties at h
    dsimp only at h
    split_ifs at h <;> simp_all

/-! ## Claim theorems -/

/-- C1: for every set of stage outputs, `estimate` returns
`adjusted_confidence = clamp(initial_confidence - total penalty, 0, 100)` and
`delta = adjusted_confidence - initial_confidence` exactly; the adjusted value
is always within [0, 100], and whenever the total penalty reaches the initial
confidence the adjusted confidence is exactly 0 (never negative). -/
theorem estimate_clamps_confidence (context_analysis : ContextAnalysis)
    (proposer_output : ProposerOutput) (devils_advocate_output : DevilsAdvocateOutput)
    (judge_output : JudgeOutput) :
    let out := estimate context_analysis proposer_output devils_advocate_output judge_output
    let total := (out.penalties.map fun p => p.percentage_impact).sum
    out.initial_confidence = proposer_output.confidence
    ∧ out.adjusted_confidence = max 0 (min 100 (out.initial_confidence - total))
    ∧ out.delta = out.adjusted_confidence - out.initial_confidence
    ∧ 0 ≤ out.adjusted_confidence
    ∧ out.adjusted_confidence ≤ 100
    ∧ (out.initial_confidence ≤ total → out.adjusted_confidence = 0) := by
  intro out total
  refine ⟨rfl, rfl, rfl, le_max_left _ _, max_le (by norm_num) (min_le_left _ _), ?_⟩
  intro h
  show max 0 (min 100 (out.initial_confidence - total)) = 0
  rw [min_eq_right (by omega : out.initial_confidence - total ≤ (100 : Int))]
  exact max_eq_left (by omega)

/-- Witness for C1 at a concrete input where the total penalty (60) exceeds the
initial confidence (50): the adjusted confidence is exactly 0. -/
theorem estimate_clamps_confidence_witness :
    (estimate caW poW daoW joW).adjusted_confidence = 0 := by
  have h := estimate_clamps_confidence caW poW daoW joW
  exact h.2.2.2.2.2 (by decide)

/-- C10: for every set of stage outputs with initial confidence in [0, 100],
the confidence output has `delta ≤ 0` (confidence is never adjusted upward)
and an empty improvements list. -/
theorem estimate_delta_nonpositive (context_analysis : ContextAnalysis)
    (proposer_output : ProposerOutput) (devils_advocate_output : DevilsAdvocateOutput)
    (judge_output : JudgeOutput)
    (h0 : 0 ≤ proposer_output.confidence) (_h1 : proposer_output.confidence ≤ 100) :
    (estimate context_analysis proposer_output devils_advocate_output judge_output).delta ≤ 0
    ∧ (estimate context_analysis proposer_output devils_advocate_output
        judge_output).improvements = [] := by
  refine ⟨?_, rfl⟩
  have htot : 0 ≤ ((estimate context_analysis proposer_output devils_advocate_output
      judge_output).penalties.map fun p => p.percentage_impact).sum := by
    apply List.sum_nonneg
    intro x hx
    rcases List.mem_map.1 hx with ⟨p, hp, rfl⟩
    exact estimate_penalties_nonneg _ _ _ _ p hp
  have hle : max 0 (min 100 (proposer_output.confidence
      - ((estimate context_analysis proposer_output devils_advocate_output
          judge_output).penalties.map fun p => p.percentage_impact).sum))
      ≤ proposer_output.confidence :=
    max_le h0 ((min_le_right _ _).trans (by omega))
  exact sub_nonpos.2 hle

/-- Witness for C10 at a concrete valid input. -/
theorem estimate_delta_nonpositive_witness :
    (estimate caW poW daoW joW).delta ≤ 0
    ∧ (estimate caW poW daoW joW).improvements = [] :=
  estimate_delta_nonpositive caW poW daoW joW (by decide) (by decide)

/-- C2 counterexample: with 1 of 6 required items provided, the code truncates
`100/6` to 16, while the spec's `round(100 × 1/6)` is 17. -/
theorem completeness_score_round_counterexample :
    calculate_completeness_score ["a"] ["r1", "r2", "r3", "r4", "r5", "r6"]
      ≠ completeness_score_round_spec ["a"] ["r1", "r2", "r3", "r4", "r5", "r6"] := by
  have hL : calculate_completeness_score ["a"] ["r1", "r2", "r3", "r4", "r5", "r6"] = 16 := by
    unfold calculate_completeness_score
    rw [if_neg (by decide)]
    dsimp only
    have h1 : (((["a"] : List String).length : ℚ)
        / ((["r1", "r2", "r3", "r4", "r5", "r6"] : List String).length : ℚ)) * 100
        = ((100 : ℤ) : ℚ) / ((6 : ℕ) : ℚ) := by
      norm_num
    rw [h1, Rat.floor_intCast_div_natCast]
    decide
  have hR : completeness_score_round_spec ["a"] ["r1", "r2", "r3", "r4", "r5", "r6"] = 17 := by
    unfold completeness_score_round_spec
    rw [if_neg (by decide)]
    have h1 : (100 * ((["a"] : List String).length : ℚ))
        / ((["r1", "r2", "r3", "r4", "r5", "r6"] : List String).length : ℚ)
        = 50 / 3 := by
      norm_num
    rw [h1, round_eq]
    have h2 : (50 / 3 : ℚ) + 1 / 2 = ((103 : ℤ) : ℚ) / ((6 : ℕ) : ℚ) := by
      norm_num
    rw [h2, Rat.floor_intCast_div_natCast]
    decide
  rw [hL, hR]
  decide

/-- C2 (amended): the completeness score is the truncation (not the rounding)
of `100 × |provided| / |required|`, clamped to [0, 100], and is 100 when the
required list is empty. -/
theorem completeness_score_truncation (provided required : List String) :
    calculate_completeness_score provided required
      = (if required.isEmpty then 100
         else max 0 (min 100 ((100 * (provided.length : Int)) / (required.length : Int))))
    ∧ 0 ≤ calculate_completeness_score provided required
    ∧ calculate_completeness_score provided required ≤ 100
    ∧ (required.isEmpty → calculate_completeness_score provided required = 100) := by
  have key : calculate_completeness_score provided required
      = (if required.isEmpty then 100
         else max 0 (min 100 ((100 * (provided.length : Int)) / (required.length : Int)))) := by
    unfold calculate_completeness_score
    split_ifs with h
    · rfl
    · dsimp only
      congr 2
      have h2 : ((provided.length : ℚ) / (required.length : ℚ)) * 100
          = (((100 * provided.length : ℕ) : ℤ) : ℚ) / ((required.length : ℕ) : ℚ) := by
        push_cast
        ring
      rw [h2, Rat.floor_intCast_div_natCast]
      push_cast
      ring_nf
  refine ⟨key, ?_, ?_, fun h => ?_⟩
  · rw [key]
    split_ifs
    · norm_num
    · exact le_max_left _ _
  · rw [key]
    split_ifs
    · norm_num
    · exact max_le (by norm_num) (min_le_left _ _)
  · rw [key]
    simp [h]

/-- Witness for C2's amended statement: the empty required list yields 100. -/
theorem completeness_score_truncation_witness :
    calculate_completeness_score [] [] = 100 :=
  (completeness_score_truncation [] []).2.2.2 (by decide)

/-- C5: `_calculate_missing_context_penalties` adds exactly one penalty per
missing item, and its size is 20 when the completeness score is below 30, 15
when it is in [30, 50), and 10 when it is at least 50. -/
theorem missing_context_penalty_step_function (context_analysis : ContextAnalysis) :
    (calculate_missing_context_penalties context_analysis).length
      = context_analysis.missing_context.length
    ∧ ∀ p ∈ calculate_missing_context_penalties context_analysis,
        (context_analysis.completeness_score < 30 → p.percentage_impact = 20)
        ∧ (30 ≤ context_analysis.completeness_score
            ∧ context_analysis.completeness_score < 50 → p.percentage_impact = 15)
        ∧ (50 ≤ context_analysis.completeness_score → p.percentage_impact = 10) := by
  constructor
  · simp [calculate_missing_context_penalties]
  · intro p hp
    rcases List.mem_map.1 hp with ⟨x, -, rfl⟩
    dsimp only
    refine ⟨fun h => ?_, fun h => ?_, fun h => ?_⟩ <;> split_ifs <;> omega

/-- Witness for C5: with completeness 0, each of the three missing items of the
fixture costs 20 points. -/
theorem missing_context_penalty_step_function_witness :
    (calculate_missing_context_penalties caW).length = caW.missing_context.length
    ∧ ({ reason := "Missing critical context: rollback plan", percentage_impact := 20 }
        : ConfidencePenalty).percentage_impact = 20 := by
  refine ⟨(missing_context_penalty_step_function caW).1, ?_⟩
  exact ((missing_context_penalty_step_function caW).2
    { reason := "Missing critical context: rollback plan", percentage_impact := 20 }
    (by decide)).1 (by decide)

/-- C6: the high-risk-assumption penalties are exactly one per proposal
assumption with risk level high - 12 points when its statement occurs
case-insensitively inside some critique flag, 6 points otherwise - and
assumptions with other risk levels contribute nothing. -/
theorem high_risk_assumption_penalty_rule (proposer_output : ProposerOutput)
    (devils_advocate_output : DevilsAdvocateOutput) :
    calculate_high_risk_assumption_penalties proposer_output devils_advocate_output
      = (proposer_output.assumptions.filter fun a => decide (a.risk_level = "high")).map
          fun a =>
            if flaggedBySpec devils_advocate_output a then
              { reason := "High-risk unverified assumption: " ++ a.statement.take 60 ++ "..."
                percentage_impact := 12 }
            else
              { reason := "High-risk assumption: " ++ a.statement.take 60 ++ "..."
                percentage_impact := 6 } := by
  unfold calculate_high_risk_assumption_penalties
  have hfilter : (proposer_output.assumptions.filter fun a => a.risk_level == "high")
      = proposer_output.assumptions.filter fun a => decide (a.risk_level = "high") := by
    apply List.filter_congr
    intro a _
    by_cases h : a.risk_level = "high" <;> simp [h]
  rw [hfilter]
  apply List.map_congr_left
  intro a _
  dsimp only
  by_cases hf : flaggedBySpec devils_advocate_output a
  · rw [if_pos hf]
    have hany : (devils_advocate_output.high_risk_assumptions.any fun hra =>
        containsSubstring hra.toLower a.statement.toLower) = true := by
      rw [List.any_eq_true]
      rcases hf with ⟨hra, hmem, hinf⟩
      exact ⟨hra, hmem, decide_eq_true hinf⟩
    rw [hany]
    rfl
  · rw [if_neg hf]
    have hany : (devils_advocate_output.high_risk_assumptions.any fun hra =>
        containsSubstring hra.toLower a.statement.toLower) = false := by
      simp only [List.any_eq_false, containsSubstring, decide_eq_true_eq]
      intro hra hmem hinf
      exact hf ⟨hra, hmem, hinf⟩
    rw [hany]
    rfl

/-- C7: the missing-context diff of `compare_versions` satisfies the set
algebra of the spec: remaining is the intersection, resolved and remaining
partition the first version's missing set (their union is `A.missing`, their
intersection is empty), and new is `B.missing - A.missing`. -/
theorem compare_versions_missing_context_algebra (v1_missing v2_missing : List String) :
    (compare_missing_context v1_missing v2_missing).2.1
      = v1_missing.toFinset ∩ v2_missing.toFinset
    ∧ (compare_missing_context v1_missing v2_missing).1
        ∪ (compare_missing_context v1_missing v2_missing).2.1 = v1_missing.toFinset
    ∧ (compare_missing_context v1_missing v2_missing).1
        ∩ (compare_missing_context v1_missing v2_missing).2.1 = ∅
    ∧ (compare_missing_context v1_missing v2_missing).2.2
        = v2_missing.toFinset \ v1_missing.toFinset := by
  refine ⟨Finset.inter_comm _ _, ?_, ?_, rfl⟩
  · show v1_missing.toFinset \ v2_missing.toFinset
        ∪ v2_missing.toFinset ∩ v1_missing.toFinset = v1_missing.toFinset
    rw [Finset.inter_comm]
    exact Finset.sdiff_union_inter _ _
  · show v1_missing.toFinset \ v2_missing.toFinset
        ∩ (v2_missing.toFinset ∩ v1_missing.toFinset) = ∅
    ext x
    simp only [Finset.mem_inter, Finset.mem_sdiff, Finset.not_mem_empty, iff_false]
    tauto

/-- Folding `pick_latest` from `some b` yields a row of the list (or `b`
itself) whose version bounds `b`'s and every listed row's version. -/
theorem foldl_pick_spec (l : List DecisionRunRow) (b : DecisionRunRow) :
    ∃ r, l.foldl pick_latest (some b) = some r ∧ (r = b ∨ r ∈ l)
      ∧ b.version ≤ r.version ∧ ∀ x ∈ l, x.version ≤ r.version := by
  induction l generalizing b with
  | nil => exact ⟨b, rfl, Or.inl rfl, le_refl _, by simp⟩
  | cons x l ih =>
      simp only [List.foldl_cons]
      by_cases h : b.version < x.version
      · rw [show pick_latest (some b) x = some x from by simp [pick_latest, h]]
        obtain ⟨r, h1, h2, h3, h4⟩ := ih x
        refine ⟨r, h1, ?_, le_of_lt (lt_of_lt_of_le h h3), ?_⟩
        · rcases h2 with h2 | h2
          · exact Or.inr (h2 ▸ List.mem_cons_self _ _)
          · exact Or.inr (List.mem_cons_of_mem _ h2)
        · intro y hy
          rcases List.mem_cons.1 hy with hy | hy
          · exact hy ▸ h3
          · exact h4 y hy
      · rw [show pick_latest (some b) x = some b from by simp [pick_latest, h]]
        obtain ⟨r, h1, h2, h3, h4⟩ := ih b
        refine ⟨r, h1, ?_, h3, ?_⟩
        · rcases h2 with h2 | h2
          · exact Or.inl h2
          · exact Or.inr (List.mem_cons_of_mem _ h2)
        · intro y hy
          rcases List.mem_cons.1 hy with hy | hy
          · exact hy ▸ le_trans (not_lt.1 h) h3
          · exact h4 y hy

/-- `latest_record` returns nothing exactly on an empty filter result, and
otherwise a stored row of the identity with the maximal version. -/
theorem latest_record_spec (db : List DecisionRunRow) (id : String) :
    (latest_record db id = none ∧ db.filter (fun r => r.decision_id == id) = [])
    ∨ ∃ r, latest_record db id = some r
        ∧ r ∈ db.filter (fun r => r.decision_id == id)
        ∧ ∀ x ∈ db.filter (fun r => r.decision_id == id), x.version ≤ r.version := by
  unfold latest_record
  cases hf : db.filter (fun r => r.decision_id == id) with
  | nil => exact Or.inl ⟨rfl, rfl⟩
  | cons b l =>
      right
      obtain ⟨r, h1, h2, h3, h4⟩ := foldl_pick_spec l b
      refine ⟨r, ?_, ?_, ?_⟩
      · simpa [pick_latest] using h1
      · rcases h2 with h2 | h2
        · exact h2 ▸ List.mem_cons_self _ _
        · exact List.mem_cons_of_mem _ h2
      · intro x hx
        rcases List.mem_cons.1 hx with hx | hx
        · exact hx ▸ h3
        · exact h4 x hx

/-- C8: the next version number for an identity is 1 when the store holds no
row for it, and otherwise 1 plus the maximum stored version for it, regardless
of gaps in the stored version numbers. -/
theorem next_version_rule (db : List DecisionRunRow) (id : String) :
    (db.filter (fun r => r.decision_id == id) = [] → get_next_version db id = 1)
    ∧ ∀ m : Nat,
        (∃ r ∈ db.filter (fun r => r.decision_id == id), r.version = m) →
        (∀ r ∈ db.filter (fun r => r.decision_id == id), r.version ≤ m) →
        get_next_version db id = m + 1 := by
  rcases latest_record_spec db id with ⟨hn, hf⟩ | ⟨r, hs, hmem, hmax⟩
  · constructor
    · intro _
      unfold get_next_version
      rw [hn]
    · rintro m ⟨r, hr, -⟩ -
      rw [hf] at hr
      simp at hr
  · constructor
    · intro h
      rw [h] at hmem
      simp at hmem
    · rintro m ⟨r', hr', hv⟩ hub
      unfold get_next_version
      simp only [hs]
      have h1 : r.version ≤ m := hub r hmem
      have h2 : m ≤ r.version := hv ▸ hmax r' hr'
      omega

/-- Witness for C8: in a store holding versions 1 and 5 of one identity (a
gap), the next version is 6; for comparison both hypotheses are discharged at
the maximum 5. -/
theorem next_version_rule_witness :
    get_next_version dbW "dec_20250103_launch" = 5 + 1 :=
  (next_version_rule dbW "dec_20250103_launch").2 5 (by decide) (by decide)

/-- C9: when the latest stored version of an identity exists and the request's
decision text differs from its stored decision text, `reevaluate_decision`
fails with an error message containing both texts and leaves the version store
unchanged (no new row). -/
theorem reevaluate_mismatch_rejected (db : List DecisionRunRow) (id : String)
    (decision_input : DecisionInput) (latest : DecisionRunRow)
    (hlatest : latest_record db id = some latest)
    (hne : decision_input.decision ≠ latest.decision) :
    (reevaluate_decision db id decision_input).1 = db
    ∧ ∃ msg, (reevaluate_decision db id decision_input).2 = .error msg
        ∧ (∃ s t, msg.data = s ++ latest.decision.data ++ t)
        ∧ (∃ s t, msg.data = s ++ decision_input.decision.data ++ t) := by
  unfold reevaluate_decision
  simp only [hlatest]
  rw [if_pos hne]
  refine ⟨rfl, _, rfl, ?_, ?_⟩
  · exact ⟨"Decision statement must match original. Expected: '".data,
      ("', Got: '" ++ decision_input.decision ++ "'").data,
      by simp [str_data_append, List.append_assoc]⟩
  · exact ⟨("Decision statement must match original. Expected: '"
        ++ latest.decision ++ "', Got: '").data, "'".data,
      by simp [str_data_append, List.append_assoc]⟩

/-- C4: the category keyword heading the rendered final recommendation is
DELAY exactly when the adjusted confidence is below 40, CONDITIONAL exactly
when it is in [40, 70), and PROCEED exactly when it is at least 70 (the
boundary values 40 and 70 enter the next band). -/
theorem final_recommendation_category_bands (confidence_output : ConfidenceOutput)
    (proposer_output : ProposerOutput) (devils_advocate_output : DevilsAdvocateOutput)
    (context_analysis : ContextAnalysis) :
    (recommendationCategory (generate_final_recommendation confidence_output
        proposer_output devils_advocate_output context_analysis) = "DELAY"
      ↔ confidence_output.adjusted_confidence < 40)
    ∧ (recommendationCategory (generate_final_recommendation confidence_output
        proposer_output devils_advocate_output context_analysis) = "CONDITIONAL"
      ↔ 40 ≤ confidence_output.adjusted_confidence
          ∧ confidence_output.adjusted_confidence < 70)
    ∧ (recommendationCategory (generate_final_recommendation confidence_output
        proposer_output devils_advocate_output context_analysis) = "PROCEED"
      ↔ 70 ≤ confidence_output.adjusted_confidence) := by
  have hcat : recommendationCategory (generate_final_recommendation confidence_output
      proposer_output devils_advocate_output context_analysis)
      = (if confidence_output.adjusted_confidence < 40 then "DELAY"
         else if confidence_output.adjusted_confidence < 70 then "CONDITIONAL"
         else "PROCEED") := by
    simp only [generate_final_recommendation]
    split_ifs <;>
      (repeat rw [str_append_assoc]) <;>
      exact (category_of_append _ _ (by decide)).trans (by decide)
  rw [hcat]
  split_ifs with h1 h2
  · exact ⟨⟨fun _ => h1, fun _ => rfl⟩,
      ⟨fun hEq => absurd hEq (by decide), fun hb => absurd h1 (by omega)⟩,
      ⟨fun hEq => absurd hEq (by decide), fun hb => absurd h1 (by omega)⟩⟩
  · exact ⟨⟨fun hEq => absurd hEq (by decide), fun hb => absurd hb (by omega)⟩,
      ⟨fun _ => ⟨by omega, h2⟩, fun _ => rfl⟩,
      ⟨fun hEq => absurd hEq (by decide), fun hb => absurd hb (by omega)⟩⟩
  · exact ⟨⟨fun hEq => absurd hEq (by decide), fun hb => absurd hb (by omega)⟩,
      ⟨fun hEq => absurd hEq (by decide), fun hb => absurd hb (by omega)⟩,
      ⟨fun _ => by omega, fun _ => rfl⟩⟩

/-- Witness for C9: re-evaluating the fixture store with a different decision
text is rejected, the store is unchanged, and the message carries both texts. -/
theorem reevaluate_mismatch_rejected_witness :
    (reevaluate_decision db9 "dec_1" input9).1 = db9
    ∧ ∃ msg, (reevaluate_decision db9 "dec_1" input9).2 = .error msg
        ∧ (∃ s t, msg.data = s ++ "ship it".data ++ t)
        ∧ (∃ s t, msg.data = s ++ "cancel it".data ++ t) :=
  reevaluate_mismatch_rejected db9 "dec_1" input9
    { decision_id := "dec_1", version := 1, decision := "ship it" }
    (by decide) (by decide)

/-- C3 counterexample: with a tracing collaborator whose span creation raises
during a stage wrap, the pipeline outcome differs from the outcome with a
non-raising collaborator - the exception propagates out of `run` instead of
being caught and discarded. -/
theorem span_exception_changes_outcome :
    run_workflow (some lfSpanRaises) agents0 "Ship the feature this week?" none
      ≠ run_workflow (some lfOk) agents0 "Ship the feature this week?" none := by
  intro h
  have hL : run_workflow (some lfSpanRaises) agents0 "Ship the feature this week?" none
      = .error "telemetry down" := rfl
  have hR : ∃ s, run_workflow (some lfOk) agents0 "Ship the feature this week?" none
      = .ok s := ⟨_, rfl⟩
  rcases hR with ⟨s, hR⟩
  rw [hL, hR] at h
  exact Except.noConfusion h

/-- C3 (amended): exceptions raised by the tracing collaborator at trace level
are caught and discarded - a failing trace creation leaves the outcome equal to
running without tracing at all, and the final trace update and flush never
influence the outcome - but span creation, span end and score logging inside
the stage wraps are not guarded, so their exceptions propagate (see the
counterexample). -/
theorem trace_level_exceptions_discarded (agents : AgentStubs) (decision : String)
    (context : Option String) (ops ops' : LangfuseOps) :
    ((∃ e, ops.trace_create = .error e) →
        run_workflow (some ops) agents decision context
          = run_workflow none agents decision context)
    ∧ (ops.trace_create = ops'.trace_create → ops.span_create = ops'.span_create →
        ops.span_end = ops'.span_end → ops.log_score = ops'.log_score →
        run_workflow (some ops) agents decision context
          = run_workflow (some ops') agents decision context) := by
  constructor
  · rintro ⟨e, he⟩
    simp only [run_workflow, initial_trace_id, he]
    rfl
  · intro h1 h2 h3 h4
    simp only [run_workflow, initial_trace_id, analyze_context_node,
      propose_recommendation_node, critique_recommendation_node,
      evaluate_reasoning_node, estimate_confidence_node, h1, h2, h3, h4]

/-- Witness for C3's amended statement: a raising trace creation yields the
untraced outcome, and raising final update and flush yield the same outcome as
the fully succeeding collaborator. -/
theorem trace_level_exceptions_discarded_witness :
    run_workflow (some lfTraceRaises) agents0 "Ship the feature this week?" none
      = run_workflow none agents0 "Ship the feature this week?" none
    ∧ run_workflow (some lfUpdateRaises) agents0 "Ship the feature this week?" none
      = run_workflow (some lfOk) agents0 "Ship the feature this week?" none :=
  ⟨(trace_level_exceptions_discarded agents0 "Ship the feature this week?" none
      lfTraceRaises lfOk).1 ⟨"telemetry down", rfl⟩,
   (trace_level_exceptions_discarded agents0 "Ship the feature this week?" none
      lfUpdateRaises lfOk).2 rfl rfl rfl rfl⟩

end SecondGuess
